import Mathlib

/-!
# Verification of the Notes-Email task/reminder application

Shallow embedding of the route handlers and the reminder scheduler of
`src/index.js` (and `src/routes/user.js`), together with theorems settling the
specification claims.  Times are modelled as `Int` millisecond timestamps
(JavaScript `Date.getTime()`); wall-clock decomposition uses Euclidean
division/modulo, which matches JavaScript date-field extraction for the
epoch-based clock.
-/

namespace NotesEmail

/-! ## Data model -/

/-- A stored user document (`User` collection): identifier, unique email and the
stored password hash. -/
structure StoredUser where
  id : String
  email : String
  password : String
  deriving DecidableEq, Repr

/-- A stored task document (`Task` collection), with the fields built by the
POST `/tasks/new` handler: title, description, millisecond deadline, owning
user id and the denormalised owner email. -/
structure StoredTask where
  id : Nat
  title : String
  description : String
  deadline : Int
  user : String
  userEmail : String
  deriving DecidableEq, Repr

/-! ## Reminder scheduler (src/index.js lines 60-100) -/

/-- One hour in milliseconds, `3600 * 1000` in the source. -/
def oneHourMs : Int := 3600 * 1000

/-- `reminderTime`: the task deadline minus one hour
(`taskDeadline.getTime() - 3600 * 1000`, line 68). -/
def reminderTime (taskDeadline : Int) : Int := taskDeadline - oneHourMs

/-- Minutes-of-hour of a millisecond timestamp (JS `getMinutes()`); `/` and `%`
on `Int` are floor division and nonnegative remainder, matching the
floor-based date-field decomposition of an epoch clock. -/
def jsGetMinutes (t : Int) : Int := (t / 60000) % 60

/-- Hour-of-day of a millisecond timestamp (JS `getHours()`). -/
def jsGetHours (t : Int) : Int := (t / 3600000) % 24

/-- A five-field cron pattern of the shape `"m h * * *"`: day-of-month, month
and day-of-week are wildcards, only minute and hour are constrained. -/
structure CronPattern where
  minute : Int
  hour : Int
  deriving DecidableEq, Repr

/-- The cron pattern built at line 71:
`` `${reminderTime.getMinutes()} ${reminderTime.getHours()} * * *` ``. -/
def cronPatternOf (t : Int) : CronPattern :=
  { minute := jsGetMinutes t, hour := jsGetHours t }

/-- node-cron firing semantics for a five-field pattern `m h * * *`: the job
fires during the wall-clock minute `m` (counted in minutes since the epoch)
exactly when the minute-of-hour and hour-of-day both match; the wildcard
day/month/weekday fields match every day. -/
def cronMatches (p : CronPattern) (minutesSinceEpoch : Int) : Bool :=
  (minutesSinceEpoch % 60 == p.minute) &&
    ((minutesSinceEpoch / 60) % 24 == p.hour)

/-- `scheduleReminderEmail` (lines 60-100): computes the reminder time, builds
the cron pattern and unconditionally registers the cron job via
`cron.schedule`.  `some p` is the registered job; the function has no branch
that drops the registration. -/
def scheduleReminderEmail (taskDeadline : Int) : Option CronPattern :=
  some (cronPatternOf (reminderTime taskDeadline))

/-- Outcome of one `transporter.sendMail` call: success, or a transport
failure carrying an error message. -/
inductive SendResult where
  | ok
  | err (msg : String)
  deriving DecidableEq, Repr

/-- The try-block of the cron callback (lines 75-92): create the transporter,
await exactly one `sendMail`, then log success.  The result is the number of
`sendMail` invocations performed, paired with either the console lines printed
(`Except.ok`) or the exception that aborted the block (`Except.error`). -/
def cronCallbackTryBlock (send : SendResult) : Nat × Except String (List String) :=
  match send with
  | .ok => (1, .ok ["Reminder email sent successfully"])
  | .err e => (1, .error e)

/-- The full cron callback (lines 74-96): the try-block with a catch handler
that only logs the error (`console.error("Error sending reminder email:", …)`).
An `Except.error` in the result would be an exception escaping the callback. -/
def cronCallback (send : SendResult) : Nat × Except String (List String) :=
  match cronCallbackTryBlock send with
  | (n, .ok lines) => (n, .ok lines)
  | (n, .error e) => (n, .ok ["Error sending reminder email: " ++ e])

/-! ## Request handlers -/

/-- JS truthiness of an optional string field of a request body: a missing
field (`undefined`) and the empty string are both falsy. -/
def isTruthy : Option String → Bool
  | none => false
  | some s => !(s == "")

/-- The body of a POST `/tasks/new` request, as destructured at line 185. -/
structure NewTaskBody where
  title : Option String
  description : Option String
  deadline : Option String
  userId : Option String
  deriving DecidableEq, Repr

/-- An HTTP response as the handlers produce it: the error page rendered by
the top-level error middleware for a thrown `AppError` (status and message),
or a redirect. -/
inductive HandlerResult where
  | errorPage (status : Int) (message : String)
  | redirect (path : String)
  deriving DecidableEq, Repr

/-- `User.findById` on the users collection. -/
def userFindById (users : List StoredUser) (id : String) : Option StoredUser :=
  users.find? (fun u => u.id == id)

/-- `User.findOne({ email })` on the users collection. -/
def userFindByEmail (users : List StoredUser) (email : String) : Option StoredUser :=
  users.find? (fun u => u.email == email)

/-- Observable outcome of the POST `/tasks/new` handler: the HTTP response,
the task collection after the request, and the cron job registered by
`scheduleReminderEmail` if the handler reached it. -/
structure CreateOutcome where
  response : HandlerResult
  tasks : List StoredTask
  scheduled : Option CronPattern
  deriving DecidableEq, Repr

/-- The POST `/tasks/new` handler body (src/index.js lines 183-237).
`parseDate` models `new Date(string)` with `none` for an invalid (NaN) date;
`now` is `new Date()` at handling time; `nextId` the store-assigned id. -/
def postTasksNew (users : List StoredUser) (tasks : List StoredTask)
    (parseDate : String → Option Int) (now : Int) (nextId : Nat)
    (body : NewTaskBody) : CreateOutcome :=
  if !(isTruthy body.title) || !(isTruthy body.deadline) || !(isTruthy body.userId) then
    ⟨.errorPage 400 "Title, deadline, and user information are required fields",
      tasks, none⟩
  else
    match parseDate (body.deadline.getD "") with
    | none => ⟨.errorPage 400 "Invalid deadline date", tasks, none⟩
    | some deadlineDate =>
      if deadlineDate ≤ now then
        ⟨.errorPage 400 "Deadline cannot be in the past", tasks, none⟩
      else if deadlineDate ≤ now + oneHourMs then
        ⟨.errorPage 400 "Deadline must be at least one hour ahead", tasks, none⟩
      else
        match userFindById users (body.userId.getD "") with
        | none => ⟨.errorPage 404 "User not found", tasks, none⟩
        | some user =>
          let newTask : StoredTask :=
            { id := nextId, title := body.title.getD "",
              description := body.description.getD "",
              deadline := deadlineDate, user := body.userId.getD "",
              userEmail := user.email }
          ⟨.redirect "/tasks", tasks ++ [newTask], scheduleReminderEmail deadlineDate⟩

/-- Modelled from the spec: `src/middleware/auth.js` is not in the repository.
Per the spec's Access Guard, `protect` checks for a server-side session
carrying a user identifier and refuses access otherwise. -/
def protect (sessionUserId : Option String) : Bool :=
  sessionUserId.isSome

/-- The protected POST `/tasks/new` route: the access guard runs first
(`none` = access refused); the handler body never reads `req.session` — the
owning user comes from the `userId` field of the request body alone. -/
def tasksNewRoute (users : List StoredUser) (tasks : List StoredTask)
    (parseDate : String → Option Int) (now : Int) (nextId : Nat)
    (sessionUserId : Option String) (body : NewTaskBody) : Option CreateOutcome :=
  if protect sessionUserId then
    some (postTasksNew users tasks parseDate now nextId body)
  else
    none

/-- `Task.findByIdAndDelete`: removes the document with the given id
(document ids are unique in the store). -/
def taskFindByIdAndDelete (tasks : List StoredTask) (id : Nat) : List StoredTask :=
  tasks.filter (fun t => !(t.id == id))

/-- The GET `/tasks` handler (lines 158-176): reads the session user's tasks,
deletes every one whose deadline is strictly before `Date.now()`, re-reads
the collection and renders the remainder.  Returns the pair (task collection
after the request, rendered list). -/
def getTasksHandler (tasks : List StoredTask) (sessionUserId : String) (now : Int) :
    List StoredTask × List StoredTask :=
  let allTasks := tasks.filter (fun t => t.user == sessionUserId)
  let tasksToDelete := allTasks.filter (fun t => decide (t.deadline < now))
  let newStore := tasksToDelete.foldl (fun acc t => taskFindByIdAndDelete acc t.id) tasks
  let remainingTasks := newStore.filter (fun t => t.user == sessionUserId)
  (newStore, remainingTasks)

/-- Observable outcome of POST `/login` or POST `/signup`: HTTP status (302
for a redirect), the identity signed into the `jwt` cookie if one was set,
the user id written to `req.session.userId` if any, and the redirect target. -/
structure AuthOutcome where
  status : Int
  jwtCookie : Option String
  sessionUserId : Option String
  redirectPath : Option String
  deriving DecidableEq, Repr

/-- The POST `/login` handler (lines 120-139): looks the user up by email,
checks the password with `user.comparePassword` (abstracted as a parameter:
the `User` model file is not among the sources), and on success sets the
`jwt` cookie, writes `req.session.userId` and redirects; otherwise the 401
`AppError` reaches the error middleware and neither cookie nor session is
touched. -/
def postLogin (users : List StoredUser) (comparePassword : StoredUser → String → Bool)
    (email password : String) : AuthOutcome :=
  match userFindByEmail users email with
  | none => ⟨401, none, none, none⟩
  | some user =>
    if !(comparePassword user password) then ⟨401, none, none, none⟩
    else ⟨302, some user.id, some user.id, some "/tasks"⟩

/-- Modelled from the spec: `src/models/user.js` is not in the repository.
Per the spec's Credential Store, `User.create` fails with `DuplicateEmail`
when the email is already present (store-enforced uniqueness) and otherwise
appends the new user, storing only a one-way hash of the password. -/
def userCreate (users : List StoredUser) (hash : String → String) (newId : String)
    (email password : String) : Except String (StoredUser × List StoredUser) :=
  if users.any (fun u => u.email == email) then
    .error "DuplicateEmail"
  else
    let u : StoredUser := { id := newId, email := email, password := hash password }
    .ok (u, users ++ [u])

/-- Outcome of POST `/signup`: the error propagated to the error middleware
(if any), the cookie / session / redirect effects, and the users collection
after the request. -/
structure SignupOutcome where
  err : Option String
  jwtCookie : Option String
  sessionUserId : Option String
  redirectPath : Option String
  users : List StoredUser
  deriving DecidableEq, Repr

/-- The POST `/signup` handler (lines 141-156): `User.create`, then the `jwt`
cookie is set and the response redirects to `/tasks`; a creation failure is
passed by `wrapAsync` to the error middleware.  Note that, unlike the login
handler, this handler never writes `req.session.userId`. -/
def postSignup (users : List StoredUser) (hash : String → String) (newId : String)
    (email password : String) : SignupOutcome :=
  match userCreate users hash newId email password with
  | .error e => ⟨some e, none, none, none, users⟩
  | .ok (newUser, users2) => ⟨none, some newUser.id, none, some "/tasks", users2⟩

set_option linter.unusedVariables false in
/-- The GET `/tasks/:id` handler (lines 252-264): looks the task up by id
alone; the session user is in scope but never consulted.  `Except.ok t` is
`res.render("show", { task })`. -/
def getTaskShow (tasks : List StoredTask) (sessionUserId : String) (id : Nat) :
    Except (Int × String) StoredTask :=
  match tasks.find? (fun t => t.id == id) with
  | none => .error (404, "Task not found")
  | some t => .ok t

/-- A PUT `/tasks/:id/edit` request body: `findByIdAndUpdate(id, req.body)`
applies whichever fields the body carries (the handler passes `req.body`
through unfiltered). -/
structure TaskUpdate where
  title : Option String
  description : Option String
  deadline : Option Int
  user : Option String
  userEmail : Option String
  deriving DecidableEq, Repr

/-- Applies the fields present in the update body to a task document. -/
def applyUpdate (t : StoredTask) (u : TaskUpdate) : StoredTask :=
  { t with
    title := u.title.getD t.title,
    description := u.description.getD t.description,
    deadline := u.deadline.getD t.deadline,
    user := u.user.getD t.user,
    userEmail := u.userEmail.getD t.userEmail }

/-- Modelled from the spec: `src/models/task.js` is not in the repository.
Per the spec's Task data model, title is required and non-empty (deadline, a
required valid timestamp, is always valid as an `Int` here; description is
optional), and `runValidators: true` re-applies the schema validators to the
fields present in the update, so an update that sets title to the empty
string is rejected with a validation error. -/
def taskUpdateValid (u : TaskUpdate) : Bool :=
  match u.title with
  | some s => !(s == "")
  | none => true

set_option linter.unusedVariables false in
/-- The PUT `/tasks/:id/edit` handler (lines 287-295): `findByIdAndUpdate`
with `runValidators: true` updates the document with the given id and the
handler redirects; a validation failure is passed by `wrapAsync` to the error
middleware, which renders an error page (`err.statusCode || 500` — a store
validation error carries no statusCode) and leaves the store unchanged.  The
session user is never consulted on either path. -/
def putTaskEdit (tasks : List StoredTask) (sessionUserId : String) (id : Nat)
    (body : TaskUpdate) : List StoredTask × HandlerResult :=
  if taskUpdateValid body then
    (tasks.map (fun t => if t.id == id then applyUpdate t body else t),
      .redirect ("/tasks/" ++ toString id))
  else
    (tasks, .errorPage 500 "Task validation failed")

set_option linter.unusedVariables false in
/-- The DELETE `/tasks/:id` handler (lines 297-301): `findByIdAndDelete` by
id, then redirect; the session user is never consulted. -/
def deleteTaskRoute (tasks : List StoredTask) (sessionUserId : String) (id : Nat) :
    List StoredTask × HandlerResult :=
  (taskFindByIdAndDelete tasks id, .redirect "/tasks")

/-- The deadline-rejection condition of the POST `/tasks/new` validation
chain: the deadline field is missing/empty, the date does not parse, or the
parsed value is not strictly more than one hour after the current time (this
single bound covers both the "in the past" and the "at least one hour ahead"
checks, since the one-hour margin is positive). -/
def deadlineRejected (parseDate : String → Option Int) (now : Int)
    (body : NewTaskBody) : Prop :=
  isTruthy body.deadline = false ∨
    parseDate (body.deadline.getD "") = none ∨
    ∃ d, parseDate (body.deadline.getD "") = some d ∧ d ≤ now + oneHourMs

/-- A one-user store for concrete instantiations. -/
def demoUsers : List StoredUser :=
  [{ id := "u1", email := "alice@example.com", password := "hashed" }]

/-- A concrete date parse map: only the string "in-two-hours" denotes a valid
date, two hours after the epoch. -/
def demoParse (s : String) : Option Int :=
  if s == "in-two-hours" then some 7200000 else none

/-- A concrete well-formed creation request body. -/
def demoBody : NewTaskBody :=
  { title := some "Pay rent", description := some "transfer",
    deadline := some "in-two-hours", userId := some "u1" }

/-! ## Theorems for the scheduler claims -/

/-- C1: the claim says the reminder fires exactly once, at deadline − 1 hour,
and is then discarded.  In the code the registered pattern `m h * * *` leaves
day, month and weekday as wildcards, so the job matches the same wall-clock
minute on every day: for a task with deadline 02:00 of epoch day 0, the job
registered for reminder time 01:00 fires at minute 60 (01:00, day 0) and again
at minute 1500 (01:00, day 1), two distinct firing times. -/
theorem c1_reminder_recurs_daily :
    scheduleReminderEmail 7200000 = some ⟨0, 1⟩ ∧
    cronMatches ⟨0, 1⟩ 60 = true ∧
    cronMatches ⟨0, 1⟩ 1500 = true ∧
    (60 : Int) ≠ 1500 := by
  decide

set_option maxRecDepth 20000 in
/-- C2, counterexample: the claim says a reminder whose fire time is already
past fires immediately (clamped to now).  For a task with deadline 01:00 of
epoch day 0 the reminder time is minute 0; at now = minute 90 the fire time is
past, the job is registered, but it does not fire at minute 90 nor during any
of the following 1350 minutes (it only fires at the next midnight). -/
theorem c2_no_immediate_fire_counterexample :
    scheduleReminderEmail 3600000 = some ⟨0, 0⟩ ∧
    reminderTime 3600000 < 90 * 60000 ∧
    cronMatches ⟨0, 0⟩ 90 = false ∧
    ((List.range 1350).all fun k => !(cronMatches ⟨0, 0⟩ (90 + k))) = true := by
  decide

/-- C2 amended: scheduling never drops the reminder — the cron job is always
registered, and for every current time there is a firing minute within the
next 24 hours (the next wall-clock occurrence of the reminder time's
minute-of-hour and hour-of-day) — but the firing is not clamped to "now". -/
theorem c2_job_registered_fires_within_a_day (taskDeadline now : Int) :
    ∃ p m, scheduleReminderEmail taskDeadline = some p ∧
      now ≤ m ∧ m < now + 1440 ∧ cronMatches p m = true := by
  refine ⟨cronPatternOf (reminderTime taskDeadline),
    now + (jsGetHours (reminderTime taskDeadline) * 60 +
      jsGetMinutes (reminderTime taskDeadline) - now) % 1440, rfl, ?_, ?_, ?_⟩ <;>
    simp only [cronMatches, cronPatternOf, jsGetMinutes, jsGetHours, Bool.and_eq_true,
      beq_iff_eq] <;>
    omega

/-- C5: whatever the transport outcome, the cron callback performs exactly one
`sendMail` attempt and terminates normally (the catch handler absorbs the
failure into a log line); no error escapes to the caller and nothing is
retried. -/
theorem c5_notifier_failure_absorbed (send : SendResult) :
    ∃ logLines, cronCallback send = (1, Except.ok logLines) := by
  cases send <;> exact ⟨_, rfl⟩

/-! ## Theorems for the handler claims -/

/-- C3: with title and userId present, task creation responds 400 exactly when
the deadline is missing, unparsable, or not strictly more than one hour after
the current time; it responds 404 "User not found" exactly when the deadline
passes validation but the userId does not resolve; and it creates (appends)
the task and redirects exactly when the deadline passes and the user
resolves. -/
theorem c3_create_validation (users : List StoredUser) (tasks : List StoredTask)
    (parseDate : String → Option Int) (now : Int) (nextId : Nat) (body : NewTaskBody)
    (htitle : isTruthy body.title = true) (huser : isTruthy body.userId = true) :
    ((∃ msg, (postTasksNew users tasks parseDate now nextId body).response =
        .errorPage 400 msg) ↔ deadlineRejected parseDate now body) ∧
    ((postTasksNew users tasks parseDate now nextId body).response =
        .errorPage 404 "User not found" ↔
      (¬ deadlineRejected parseDate now body ∧
        userFindById users (body.userId.getD "") = none)) ∧
    ((∃ newTask, (postTasksNew users tasks parseDate now nextId body).response =
          .redirect "/tasks" ∧
        (postTasksNew users tasks parseDate now nextId body).tasks =
          tasks ++ [newTask]) ↔
      (¬ deadlineRejected parseDate now body ∧
        ∃ u, userFindById users (body.userId.getD "") = some u)) := by
  cases hdead : isTruthy body.deadline with
  | false =>
    simp [postTasksNew, htitle, huser, hdead, deadlineRejected]
  | true =>
    cases hparse : parseDate (body.deadline.getD "") with
    | none =>
      simp [postTasksNew, htitle, huser, hdead, hparse, deadlineRejected]
    | some d =>
      by_cases hlate : d ≤ now + oneHourMs
      · have hrej : deadlineRejected parseDate now body := by
          exact Or.inr (Or.inr ⟨d, hparse, hlate⟩)
        by_cases hpast : d ≤ now <;>
          simp [postTasksNew, htitle, huser, hdead, hparse, hpast, hlate, hrej]
      · have hok : ¬ deadlineRejected parseDate now body := by
          rintro (h | h | ⟨d2, hd2, hle⟩)
          · exact absurd hdead (by simp [h])
          · exact absurd hparse (by simp [h])
          · rw [hparse, Option.some_inj] at hd2
            subst hd2
            exact hlate hle
        have hpast : ¬ d ≤ now := by unfold oneHourMs at hlate; omega
        cases hfind : userFindById users (body.userId.getD "") with
        | none =>
          simp [postTasksNew, htitle, huser, hdead, hparse, hpast, hlate, hok, hfind]
        | some u =>
          simp [postTasksNew, htitle, huser, hdead, hparse, hpast, hlate, hok, hfind]

/-- Witness for C3 at a concrete input: title and userId are present and the
equivalences hold at the instantiated request. -/
theorem c3_create_validation_witness :
    isTruthy demoBody.title = true ∧
    ((∃ msg, (postTasksNew demoUsers [] demoParse 0 1 demoBody).response =
        .errorPage 400 msg) ↔ deadlineRejected demoParse 0 demoBody) :=
  ⟨by decide,
    (c3_create_validation demoUsers [] demoParse 0 1 demoBody (by decide) (by decide)).1⟩

/-- Every task surviving the deletion loop of the GET `/tasks` handler was in
the store and differs in id from every deleted task. -/
theorem mem_foldl_taskDelete (ds : List StoredTask) (ts : List StoredTask)
    (x : StoredTask) :
    x ∈ ds.foldl (fun acc t => taskFindByIdAndDelete acc t.id) ts ↔
      x ∈ ts ∧ ∀ d ∈ ds, x.id ≠ d.id := by
  induction ds generalizing ts with
  | nil => simp
  | cons d ds ih =>
    rw [List.foldl_cons, ih]
    simp only [taskFindByIdAndDelete, List.mem_filter, List.forall_mem_cons,
      Bool.not_eq_true', beq_eq_false_iff_ne, ne_eq]
    tauto

/-- C4: reading a user's task list deletes every task of that user whose
deadline is already strictly past the read time from the store, and every
task in the rendered list belongs to the user and has a deadline that has not
elapsed. -/
theorem c4_lazy_expiry (tasks : List StoredTask) (uid : String) (now : Int)
    (t : StoredTask) :
    (t ∈ tasks → t.user = uid → t.deadline < now →
      t ∉ (getTasksHandler tasks uid now).1) ∧
    (t ∈ (getTasksHandler tasks uid now).2 → t.user = uid ∧ now ≤ t.deadline) := by
  constructor
  · intro hmem huser hdl hcon
    rw [getTasksHandler, mem_foldl_taskDelete] at hcon
    exact hcon.2 t (by simp [List.mem_filter, hmem, huser, hdl]) rfl
  · intro hmem
    rw [getTasksHandler] at hmem
    simp only [List.mem_filter, beq_iff_eq] at hmem
    obtain ⟨hstore, huser⟩ := hmem
    rw [mem_foldl_taskDelete] at hstore
    refine ⟨huser, ?_⟩
    by_contra hlt
    push_neg at hlt
    exact hstore.2 t (by simp [List.mem_filter, hstore.1, huser, hlt]) rfl

/-- Witness for C4 at a concrete input: a store with one expired and one live
task of the same user; the expired one is gone from the store afterwards and
the live one is rendered with an unelapsed deadline. -/
theorem c4_lazy_expiry_witness :
    (⟨1, "old", "", 5, "u1", "a@x"⟩ : StoredTask) ∉
      (getTasksHandler [⟨1, "old", "", 5, "u1", "a@x"⟩, ⟨2, "new", "", 50, "u1", "a@x"⟩]
        "u1" 10).1 ∧
    ((⟨2, "new", "", 50, "u1", "a@x"⟩ : StoredTask).user = "u1" ∧
      (10 : Int) ≤ (⟨2, "new", "", 50, "u1", "a@x"⟩ : StoredTask).deadline) :=
  ⟨(c4_lazy_expiry [⟨1, "old", "", 5, "u1", "a@x"⟩, ⟨2, "new", "", 50, "u1", "a@x"⟩]
      "u1" 10 ⟨1, "old", "", 5, "u1", "a@x"⟩).1 (by decide) (by decide) (by decide),
    (c4_lazy_expiry [⟨1, "old", "", 5, "u1", "a@x"⟩, ⟨2, "new", "", 50, "u1", "a@x"⟩]
      "u1" 10 ⟨2, "new", "", 50, "u1", "a@x"⟩).2 (by decide)⟩

/-- C6: a login request with an unknown email, or with a known email and a
password the stored credential rejects, yields a 401 response and neither a
`jwt` cookie nor a session entry. -/
theorem c6_login_failure (users : List StoredUser)
    (comparePassword : StoredUser → String → Bool) (email password : String)
    (h : userFindByEmail users email = none ∨
      ∃ u, userFindByEmail users email = some u ∧ comparePassword u password = false) :
    postLogin users comparePassword email password =
      { status := 401, jwtCookie := none, sessionUserId := none,
        redirectPath := none } := by
  rcases h with h | ⟨u, hu, hc⟩ <;> simp [postLogin, *]

/-- Witness for C6 at a concrete input: wrong password for an existing user. -/
theorem c6_login_failure_witness :
    (∃ u, userFindByEmail demoUsers "alice@example.com" = some u ∧
      (u.password == "hash:" ++ "wrong") = false) ∧
    postLogin demoUsers (fun u p => u.password == "hash:" ++ p)
        "alice@example.com" "wrong" =
      { status := 401, jwtCookie := none, sessionUserId := none,
        redirectPath := none } :=
  ⟨⟨{ id := "u1", email := "alice@example.com", password := "hashed" }, by decide, by decide⟩,
    c6_login_failure demoUsers (fun u p => u.password == "hash:" ++ p)
      "alice@example.com" "wrong"
      (Or.inr ⟨{ id := "u1", email := "alice@example.com", password := "hashed" },
        by decide, by decide⟩)⟩

/-- C7: a signup request whose email is already registered fails with
`DuplicateEmail` and leaves the users collection unchanged — no second user
record with that email is created. -/
theorem c7_duplicate_email (users : List StoredUser) (hash : String → String)
    (newId email password : String)
    (h : users.any (fun u => u.email == email) = true) :
    (postSignup users hash newId email password).err = some "DuplicateEmail" ∧
    (postSignup users hash newId email password).users = users := by
  simp [postSignup, userCreate, h]

/-- Witness for C7 at a concrete input: signing up again with the already
registered email. -/
theorem c7_duplicate_email_witness :
    (demoUsers.any (fun u => u.email == "alice@example.com")) = true ∧
    (postSignup demoUsers (fun p => "hash:" ++ p) "u2" "alice@example.com" "pw").err =
      some "DuplicateEmail" ∧
    (postSignup demoUsers (fun p => "hash:" ++ p) "u2" "alice@example.com" "pw").users =
      demoUsers :=
  ⟨by decide,
    c7_duplicate_email demoUsers (fun p => "hash:" ++ p) "u2" "alice@example.com" "pw"
      (by decide)⟩

/-- C8: the claim says a successful signup records the new user's identifier
in the server-side session, as a successful login does.  At a concrete fresh
signup the handler succeeds (redirect to `/tasks`, `jwt` cookie set) yet the
session entry is `none`, while the login handler at the corresponding
credentials does set it. -/
theorem c8_signup_sets_no_session :
    (postSignup [] (fun p => "hash:" ++ p) "u1" "alice@example.com" "pw").redirectPath =
      some "/tasks" ∧
    (postSignup [] (fun p => "hash:" ++ p) "u1" "alice@example.com" "pw").jwtCookie =
      some "u1" ∧
    (postSignup [] (fun p => "hash:" ++ p) "u1" "alice@example.com" "pw").sessionUserId =
      none ∧
    (postLogin [{ id := "u1", email := "alice@example.com", password := "hash:pw" }]
        (fun u p => u.password == "hash:" ++ p) "alice@example.com" "pw").sessionUserId =
      some "u1" := by
  decide

/-- C9: the protected POST `/tasks/new` route gives identical outcomes for two
authenticated sessions with the same request body — the owning user and the
reminder recipient are determined by the body's `userId` alone. -/
theorem c9_owner_from_body_only (users : List StoredUser) (tasks : List StoredTask)
    (parseDate : String → Option Int) (now : Int) (nextId : Nat)
    (s1 s2 : Option String) (body : NewTaskBody)
    (h1 : protect s1 = true) (h2 : protect s2 = true) :
    tasksNewRoute users tasks parseDate now nextId s1 body =
      tasksNewRoute users tasks parseDate now nextId s2 body := by
  simp [tasksNewRoute, h1, h2]

/-- Witness for C9 at a concrete input: sessions authenticated as two
different users produce the same creation outcome. -/
theorem c9_owner_from_body_only_witness :
    protect (some "alice-session") = true ∧
    tasksNewRoute demoUsers [] demoParse 0 1 (some "alice-session") demoBody =
      tasksNewRoute demoUsers [] demoParse 0 1 (some "bob-session") demoBody :=
  ⟨by decide,
    c9_owner_from_body_only demoUsers [] demoParse 0 1
      (some "alice-session") (some "bob-session") demoBody (by decide) (by decide)⟩

set_option linter.unusedVariables false in
/-- C10: for a stored task whose owner differs from the session user, the
show, edit and delete routes all succeed: GET `/tasks/:id` renders some task,
PUT `/tasks/:id/edit` with a body that passes the store's field validation
applies the update and redirects, and DELETE `/tasks/:id` removes the task
and redirects — no ownership check anywhere (the ownership hypothesis is
never needed by any branch of the handlers). -/
theorem c10_no_ownership_check (tasks : List StoredTask) (sid : String)
    (t : StoredTask) (body : TaskUpdate)
    (hmem : t ∈ tasks) (hown : t.user ≠ sid)
    (hvalid : taskUpdateValid body = true) :
    (∃ t2, getTaskShow tasks sid t.id = .ok t2) ∧
    (applyUpdate t body ∈ (putTaskEdit tasks sid t.id body).1 ∧
      (putTaskEdit tasks sid t.id body).2 = .redirect ("/tasks/" ++ toString t.id)) ∧
    (t ∉ (deleteTaskRoute tasks sid t.id).1 ∧
      (deleteTaskRoute tasks sid t.id).2 = .redirect "/tasks") := by
  refine ⟨?_, ⟨?_, by simp [putTaskEdit, hvalid]⟩, ⟨?_, rfl⟩⟩
  · have hsome : (tasks.find? (fun x => x.id == t.id)).isSome := by
      rw [List.find?_isSome]
      exact ⟨t, hmem, by simp⟩
    rcases Option.isSome_iff_exists.mp hsome with ⟨t2, h2⟩
    exact ⟨t2, by simp [getTaskShow, h2]⟩
  · have hmap := List.mem_map_of_mem
      (fun x => if x.id == t.id then applyUpdate x body else x) hmem
    simpa [putTaskEdit, hvalid] using hmap
  · simp [deleteTaskRoute, taskFindByIdAndDelete, List.mem_filter]

/-- Witness for C10 at a concrete input: a task owned by "alice" operated on
under a session authenticated as "bob". -/
theorem c10_no_ownership_check_witness :
    ((⟨1, "T", "d", 100, "alice", "a@x"⟩ : StoredTask) ∈
      [(⟨1, "T", "d", 100, "alice", "a@x"⟩ : StoredTask)]) ∧
    (∃ t2, getTaskShow [⟨1, "T", "d", 100, "alice", "a@x"⟩] "bob" 1 = .ok t2) ∧
    ((⟨1, "T", "d", 100, "alice", "a@x"⟩ : StoredTask) ∉
      (deleteTaskRoute [⟨1, "T", "d", 100, "alice", "a@x"⟩] "bob" 1).1) :=
  ⟨by decide,
    (c10_no_ownership_check [⟨1, "T", "d", 100, "alice", "a@x"⟩] "bob"
      ⟨1, "T", "d", 100, "alice", "a@x"⟩
      ⟨some "N", none, none, none, none⟩ (by decide) (by decide) (by decide)).1,
    (c10_no_ownership_check [⟨1, "T", "d", 100, "alice", "a@x"⟩] "bob"
      ⟨1, "T", "d", 100, "alice", "a@x"⟩
      ⟨some "N", none, none, none, none⟩ (by decide) (by decide) (by decide)).2.2.1⟩

end NotesEmail
